import Mathlib

/-!
Shallow embedding of the two GitHub Actions scripts in the repository
(check-migrations/index.js and dump-database/index.js).  External commands
and HTTP calls are modelled by environments recording the outcome of each
call, and each script becomes a pure function from an environment to the
list of side effects it issues, in order.
-/

deriving instance DecidableEq for Except

namespace DjangoActions

/-- Outcome of one external command invocation: exit code plus captured stdout. -/
structure ExecResult where
  exitCode : Nat
  stdout : String
  deriving Repr, DecidableEq

/-- Character class of the JavaScript regex escape for whitespace
(space, tab, line terminators, and the Unicode space characters). -/
def isJsSpace (c : Char) : Bool :=
  c = ' ' || c = '\t' || c = '\n' || c = '\r' || c = '\x0b' || c = '\x0c' ||
    c = ' ' || c = ' ' ||
    (' '.val ≤ c.val && c.val ≤ ' '.val) ||
    c = ' ' || c = ' ' || c = ' ' || c = ' ' ||
    c = '　' || c = '﻿'

/-- Character class of the JavaScript regex escape for word characters:
ASCII letters, digits and underscore. -/
def isWordChar (c : Char) : Bool :=
  c.isAlphanum || c = '_'

/-- JavaScript String.prototype.trim: strips whitespace from both ends. -/
def jsTrim (s : String) : String :=
  String.mk (((s.toList.dropWhile isJsSpace).reverse.dropWhile isJsSpace).reverse)

/-- Splitting a character list at newline characters, JavaScript
String.prototype.split semantics: the empty string yields one empty line,
and a trailing newline yields a trailing empty line. -/
def splitLinesAux : List Char → List Char → List String
  | [], acc => [String.mk acc.reverse]
  | '\n' :: rest, acc => String.mk acc.reverse :: splitLinesAux rest []
  | c :: rest, acc => splitLinesAux rest (c :: acc)

/-- The lines the script iterates over: trim the whole stdout, then split
on newline. -/
def splitLines (s : String) : List String :=
  splitLinesAux (jsTrim s).toList []

/-- Matching of one line against the fixed regex of getUnappliedMigrations:
an opening bracket, a capital X or a space, a closing bracket, one or more
whitespace characters, a nonempty word-character run (the app label), a dot,
a nonempty word-character run (the migration name), end of line.  Returns
the captured groups (applied flag, app label, migration name).  Word
characters and whitespace are disjoint, so greedy matching is deterministic
and equals maximal munch. -/
def matchLine (line : String) : Option (Char × String × String) :=
  match line.toList with
  | '[' :: c :: ']' :: rest =>
    if c = 'X' ∨ c = ' ' then
      let ws := rest.takeWhile isJsSpace
      let rest1 := rest.dropWhile isJsSpace
      if ws.isEmpty then none
      else
        let a := rest1.takeWhile isWordChar
        let rest2 := rest1.dropWhile isWordChar
        if a.isEmpty then none
        else
          match rest2 with
          | '.' :: rest3 =>
            let m := rest3.takeWhile isWordChar
            let rest4 := rest3.dropWhile isWordChar
            if m.isEmpty || !rest4.isEmpty then none
            else some (c, String.mk a, String.mk m)
          | _ => none
    else none
  | _ => none

/-- Per-line step of the map inside getUnappliedMigrations: a line that does
not match the regex throws; a matching line yields its (app label, migration
name) pair when the bracket holds a space, and null when it holds an X. -/
def classifyLine (line : String) : Except String (Option (String × String)) :=
  match matchLine line with
  | none => .error ("Line " ++ line ++ " did not match regex")
  | some (c, a, m) => .ok (if c = ' ' then some (a, m) else none)

/-- The classification a matching line contributes after the null filter. -/
def unappliedOf (line : String) : Option (String × String) :=
  match matchLine line with
  | none => none
  | some (c, a, m) => if c = ' ' then some (a, m) else none

/-- The map over all lines, propagating the first thrown error. -/
def classifyLines : List String → Except String (List (Option (String × String)))
  | [] => .ok []
  | l :: ls =>
    match classifyLine l with
    | .error e => .error e
    | .ok o =>
      match classifyLines ls with
      | .error e => .error e
      | .ok os => .ok (o :: os)

/-- checkMissingMigrations: runs makemigrations with dry-run and check with
the return code ignored, and returns whether the exit code was nonzero
together with the trimmed stdout.  It is a total function of the command
outcome: it never throws. -/
def checkMissingMigrations (r : ExecResult) : Bool × String :=
  (r.exitCode != 0, jsTrim r.stdout)

/-- getUnappliedMigrations: throws when showmigrations exited nonzero,
otherwise maps every line of the trimmed stdout through the regex (throwing
on the first line that does not match), filters out the nulls, and returns
whether the remaining list is nonempty together with the list itself. -/
def getUnappliedMigrations (r : ExecResult) :
    Except String (Bool × List (String × String)) :=
  if r.exitCode != 0 then .error "Failed to run \"showmigrations --plan\""
  else
    match classifyLines (splitLines r.stdout) with
    | .error e => .error e
    | .ok opts =>
      let ms := opts.filterMap id
      .ok (decide (0 < ms.length), ms)

example : matchLine "[X] app.0001_initial" = some ('X', "app", "0001_initial") := by decide
example : matchLine "[ ] app.0002_other" = some (' ', "app", "0002_other") := by decide
example : matchLine "[ ]app.0002_other" = none := by decide
example : matchLine "[Y] app.0002_other" = none := by decide
example : matchLine "[ ] app.0002.extra" = none := by decide
example : matchLine "" = none := by decide
example : getUnappliedMigrations ⟨0, "[X] a.m1\n[ ] a.m2\n[ ] b.m3"⟩ =
    .ok (true, [("a", "m2"), ("b", "m3")]) := by decide
example : getUnappliedMigrations ⟨0, "  [X] a.m1  "⟩ = .ok (false, []) := by decide
example : getUnappliedMigrations ⟨0, "garbage"⟩ =
    .error "Line garbage did not match regex" := by decide
example : getUnappliedMigrations ⟨1, "[X] a.m1"⟩ =
    .error "Failed to run \"showmigrations --plan\"" := by decide

/-- Output record built by getMigrationOutput: the migration reference, the
captured SQL text, and the optional lock-analysis text. -/
structure MigrationDetail where
  appLabel : String
  migrationName : String
  sql : String
  locks : Option String
  deriving Repr, DecidableEq

/-- Output block of a check-run update request. -/
structure CheckOutput where
  title : String
  summary : String
  text : Option String
  deriving Repr, DecidableEq

/-- A check-run update request: the id of the check run, the conclusion,
and the output block. -/
structure CheckUpdate where
  check_run_id : Nat
  conclusion : String
  output : CheckOutput
  deriving Repr, DecidableEq

/-- Environment of one check-migrations run: the outcome of the check-run
creation, of each external command (an exec call can itself throw, e.g. when
the interpreter is missing, so each outcome is an Except), and of each
check-run update request. -/
structure CheckEnv where
  createResult : Except String Nat
  makemigrationsRes : Except String ExecResult
  showmigrationsRes : Except String ExecResult
  sqlRes : String → String → Except String ExecResult
  locksRes : String → String → Except String ExecResult
  updateResult : CheckUpdate → Except String Unit

/-- getMigrationOutput: runs sqlmigrate for the given app label and
migration name and throws when it exits nonzero; otherwise runs the
lock-analysis command (return code ignored) and keeps its stdout as the
locks field exactly when it exited zero, null otherwise. -/
def getMigrationOutput (env : CheckEnv) (p : String × String) :
    Except String MigrationDetail :=
  match env.sqlRes p.1 p.2 with
  | .error e => .error e
  | .ok sqlRes =>
    if sqlRes.exitCode != 0 then
      .error "Failed to run sqlmigrate"
    else
      match env.locksRes p.1 p.2 with
      | .error e => .error e
      | .ok locksRes =>
        .ok { appLabel := p.1, migrationName := p.2, sql := sqlRes.stdout,
              locks := if locksRes.exitCode = 0 then some locksRes.stdout else none }

/-- renderDetails: wraps content in an HTML details block. -/
def renderDetails (title content : String) : String :=
  "<details><summary>" ++ title ++ "</summary>\n\n" ++ content ++ "\n\n</details>"

/-- Markdown block for one unapplied migration, with the locks section
rendered only when the locks text is truthy (neither null nor empty). -/
def migrationSummary (d : MigrationDetail) : String :=
  String.intercalate "\n"
    [ "#### " ++ d.appLabel ++ "." ++ d.migrationName,
      renderDetails "SQL" (String.intercalate "\n" ["```sql", d.sql, "```"]),
      match d.locks with
      | some locks =>
        if locks = "" then ""
        else renderDetails "Locks" (String.intercalate "\n" ["```", locks, "```"])
      | none => "" ]

/-- renderDetailsMarkdown: the missing-migrations section when missing
migrations were detected, then the new-migrations section when there are
unapplied migrations, nulls filtered out and joined with newlines. -/
def renderDetailsMarkdown (isMissing : Bool) (mmOut : String)
    (hasUnapplied : Bool) (details : List MigrationDetail) : String :=
  String.intercalate "\n" (List.filterMap id
    [ if isMissing then some "## Missing migrations" else none,
      if isMissing then some "```" else none,
      if isMissing then some mmOut else none,
      if isMissing then some "```" else none,
      if hasUnapplied then some "## New migrations" else none,
      if hasUnapplied then some "" else none,
      if hasUnapplied then some (String.intercalate "\n" (details.map migrationSummary))
      else none ])

/-- Summary string of the check-run update, from the two flags and the
number of unapplied migrations. -/
def summaryText (isMissing hasUnapplied : Bool) (n : Nat) : String :=
  if isMissing && hasUnapplied then
    "Missing migrations and " ++ toString n ++ " new migrations"
  else if isMissing then "Missing migrations"
  else toString n ++ " new migrations"

/-- Everything the try block of the check-migrations entry point computes
before updating the check run. -/
structure BodyResult where
  isMissing : Bool
  mmOut : String
  hasUnapplied : Bool
  migs : List (String × String)
  details : List MigrationDetail
  deriving Repr, DecidableEq

/-- The try block of the check-migrations entry point: check for missing
migrations, list unapplied migrations, and fetch SQL plus locks for each of
them, propagating the first thrown error. -/
def checkBody (env : CheckEnv) : Except String BodyResult := do
  let mm ← env.makemigrationsRes
  let p := checkMissingMigrations mm
  let sm ← env.showmigrationsRes
  let q ← getUnappliedMigrations sm
  let details ← q.2.mapM (getMigrationOutput env)
  pure { isMissing := p.1, mmOut := p.2, hasUnapplied := q.1,
         migs := q.2, details := details }

/-- The check-run update sent on the non-error path. -/
def successUpdate (id : Nat) (b : BodyResult) : CheckUpdate :=
  { check_run_id := id,
    conclusion := if b.isMissing then "failure" else "success",
    output :=
      { title := "Migrations check",
        summary := summaryText b.isMissing b.hasUnapplied b.migs.length,
        text := some (renderDetailsMarkdown b.isMissing b.mmOut
          b.hasUnapplied b.details) } }

/-- The check-run update sent by the catch handler. -/
def failureUpdate (id : Nat) : CheckUpdate :=
  { check_run_id := id,
    conclusion := "failure",
    output := { title := "Migrations check",
                summary := "Failed to check migrations.", text := none } }

/-- Side effects the check-migrations script can issue, in program order:
check-run creation attempts, check-run update attempts, and setFailed. -/
inductive CheckEffect where
  | createCheck (status : String)
  | updateCheck (u : CheckUpdate)
  | setFailed (msg : String)
  deriving Repr, DecidableEq

/-- The check-migrations entry point as a trace of issued effects.  The
check run is created first; if creation throws the script marks itself
failed and returns.  Then the try block runs; on success the script sends
the success-path update, and if that update itself throws the catch handler
marks the action failed and sends the failure update; on a try-block error
the catch handler does the same. -/
def runCheck (env : CheckEnv) : List CheckEffect :=
  match env.createResult with
  | .error e => [.createCheck "in_progress", .setFailed e]
  | .ok id =>
    .createCheck "in_progress" ::
    match checkBody env with
    | .error e => [.setFailed e, .updateCheck (failureUpdate id)]
    | .ok b =>
      match env.updateResult (successUpdate id b) with
      | .ok _ => [.updateCheck (successUpdate id b)]
      | .error e =>
        [.updateCheck (successUpdate id b), .setFailed e,
         .updateCheck (failureUpdate id)]

/-- Recognizer for check-run creation effects. -/
def isCreateEffect : CheckEffect → Bool
  | .createCheck _ => true
  | _ => false

/-- Well-formedness of one effect for the check-run state machine: a
creation carries status in_progress and an update carries conclusion
success or failure. -/
def effectWellFormed : CheckEffect → Bool
  | .createCheck s => s == "in_progress"
  | .updateCheck u => u.conclusion == "success" || u.conclusion == "failure"
  | .setFailed _ => true

/-- The update record of an update effect, if any. -/
def updateOf : CheckEffect → Option CheckUpdate
  | .updateCheck u => some u
  | _ => none

/-- Whether an API call outcome is a success. -/
def exceptOk : Except String Unit → Bool
  | .ok _ => true
  | .error _ => false

/-- The updates of a run that the API reports as applied. -/
def appliedUpdates (env : CheckEnv) : List CheckUpdate :=
  ((runCheck env).filterMap updateOf).filter (fun u => exceptOk (env.updateResult u))

/-- The repository-file create-or-update request commitFile sends: path,
commit message, base64 content, and the optional blob sha (undefined selects
file creation, a sha selects update). -/
structure FileRequest where
  path : String
  message : String
  content : String
  sha : Option String
  deriving Repr, DecidableEq

/-- Side effects the dump-database script can issue, in program order. -/
inductive DumpEffect where
  | createOrUpdateFile (req : FileRequest)
  | listPulls (state head : String)
  | createPull (title head base : String)
  | setFailed (msg : String)
  deriving Repr, DecidableEq

/-- Environment of one dump-database run: the outcome of each external
command and of the repository-file request. -/
structure DumpEnv where
  applyRes : Except String String
  pgDumpRes : Except String Unit
  lsFilesRes : Except String (List String)
  stashRes : Except String Unit
  testFileExit : Except String Nat
  hashLines : Except String (List String)
  stashPopRes : Except String Unit
  base64Res : Except String String
  createOrUpdateRes : FileRequest → Except String Unit

/-- Change detection shared by both dump scripts: the dump counts as
changed exactly when the output path is one of the lines printed by
git ls-files with the modified and others flags. -/
def dbDumpHasChanged (lines : List String) (outputPath : String) : Bool :=
  lines.contains outputPath

/-- dumpDatabase: run pg_dump into the output path, then list modified or
untracked files with git ls-files and report whether the output path is
among them. -/
def dumpDatabase (env : DumpEnv) (outputPath : String) : Except String Bool :=
  match env.pgDumpRes with
  | .error e => .error e
  | .ok _ =>
    match env.lsFilesRes with
    | .error e => .error e
    | .ok lines => .ok (dbDumpHasChanged lines outputPath)

/-- Sha step of commitFile: when the existence test exited zero (the file
existed before the modification of this run), read the git blob hash and
keep its first line; otherwise the sha stays undefined. -/
def shaOf (env : DumpEnv) (t : Nat) : Except String (Option String) :=
  if t = 0 then
    match env.hashLines with
    | .error e => .error e
    | .ok lines => .ok lines.head?
  else .ok none

/-- commitFile: stash the output file, test whether it existed before the
modification of this run, and if so read its git blob hash; restore the
file, base64-encode it, and build the create-or-update request whose
content is the trimmed base64 text and whose sha is the first hash line
when the file existed and undefined otherwise. -/
def commitFile (env : DumpEnv) (outputPath : String) : Except String FileRequest :=
  match env.stashRes with
  | .error e => .error e
  | .ok _ =>
    match env.testFileExit with
    | .error e => .error e
    | .ok t =>
      match shaOf env t with
      | .error e => .error e
      | .ok sha =>
        match env.stashPopRes with
        | .error e => .error e
        | .ok _ =>
          match env.base64Res with
          | .error e => .error e
          | .ok content =>
            .ok { path := outputPath, message := "Update database template",
                  content := jsTrim content, sha := sha }

/-- The try block of the dump-database entry point: apply migrations, dump
the database and detect change, commit the file, and, when the dump
changed, call createPullRequest.  No binding named createPullRequest exists
in the module (the helper is named makePullRequest and is never called), so
evaluating that identifier raises a ReferenceError, modelled as the error
of that message.  Returns the effects issued so far and the thrown error,
if any. -/
def dumpBody (env : DumpEnv) (outputPath _branch : String) :
    List DumpEffect × Option String :=
  match env.applyRes with
  | .error e => ([], some e)
  | .ok _ =>
    match dumpDatabase env outputPath with
    | .error e => ([], some e)
    | .ok hasChanged =>
      match commitFile env outputPath with
      | .error e => ([], some e)
      | .ok req =>
        match env.createOrUpdateRes req with
        | .error e => ([DumpEffect.createOrUpdateFile req], some e)
        | .ok _ =>
          if hasChanged then
            ([DumpEffect.createOrUpdateFile req],
             some "createPullRequest is not defined")
          else ([DumpEffect.createOrUpdateFile req], none)

/-- The dump-database entry point: run the try block; every thrown error
reaches the single catch handler, which marks the action failed with the
message of the error. -/
def runDump (env : DumpEnv) (outputPath branch : String) : List DumpEffect :=
  match dumpBody env outputPath branch with
  | (effs, some e) => effs ++ [DumpEffect.setFailed e]
  | (effs, none) => effs

/-- Recognizer for pull-request creation effects. -/
def isCreatePull : DumpEffect → Bool
  | .createPull _ _ _ => true
  | _ => false

/-- A pull request as far as this script looks at one. -/
structure PullInfo where
  number : Nat
  deriving Repr, DecidableEq

/-- The JavaScript values makePullRequest manipulates: undefined, a number,
a response data array of pull requests, a response object carrying such an
array in its data property, and a pending promise of a response. -/
inductive JsVal where
  | undefined
  | num (n : Nat)
  | pullArray (pulls : List PullInfo)
  | response (pulls : List PullInfo)
  | promiseOf (pulls : List PullInfo)
  deriving Repr, DecidableEq

/-- JavaScript property access: reading any property of undefined throws a
TypeError; an array exposes length; a response object exposes data; a
Promise object has neither a data nor a length own property, so any such
read yields undefined. -/
def getProp : JsVal → String → Except String JsVal
  | .undefined, p => .error ("TypeError: Cannot read property " ++ p ++ " of undefined")
  | .num _, _ => .ok .undefined
  | .pullArray ps, p => if p = "length" then .ok (.num ps.length) else .ok .undefined
  | .response ps, p => if p = "data" then .ok (.pullArray ps) else .ok .undefined
  | .promiseOf _, _ => .ok .undefined

/-- makePullRequest: fires the list request for open pull requests whose
head is owner colon branch, but does not await it, so the local variable
holds the pending promise of the response; it then reads data from the
promise and length from the result, and would create the pull request with
the fixed title, the given head branch and base master when that length is
strictly equal to zero.  Returns the issued effects and the outcome. -/
def makePullRequest (openPulls : List PullInfo) (owner branch : String) :
    List DumpEffect × Except String Unit :=
  let listEffect := DumpEffect.listPulls "open" (owner ++ ":" ++ branch)
  let pulls : JsVal := .promiseOf openPulls
  match getProp pulls "data" with
  | .error e => ([listEffect], .error e)
  | .ok d =>
    match getProp d "length" with
    | .error e => ([listEffect], .error e)
    | .ok len =>
      if len = JsVal.num 0 then
        ([listEffect, DumpEffect.createPull "Update database template" branch "master"],
         .ok ())
      else ([listEffect], .ok ())

/-- A concrete showmigrations stdout with one applied and one unapplied
migration, used to instantiate the parsing theorems. -/
def rW : ExecResult :=
  ⟨0, "[X] app.0001_initial\n[ ] app.0002_other"⟩

/-- A concrete check-migrations environment whose try block throws. -/
def envC3 : CheckEnv :=
  { createResult := .ok 5,
    makemigrationsRes := .error "boom",
    showmigrationsRes := .ok ⟨0, "[X] app.0001_initial"⟩,
    sqlRes := fun _ _ => .ok ⟨0, ""⟩,
    locksRes := fun _ _ => .ok ⟨0, ""⟩,
    updateResult := fun _ => .ok () }

/-- A concrete check-migrations environment for the SQL and locks theorem:
sqlmigrate succeeds, the lock-analysis command exits nonzero. -/
def envC4 : CheckEnv :=
  { createResult := .ok 7,
    makemigrationsRes := .ok ⟨0, ""⟩,
    showmigrationsRes := .ok rW,
    sqlRes := fun _ _ => .ok ⟨0, "SELECT 1;"⟩,
    locksRes := fun _ _ => .ok ⟨1, ""⟩,
    updateResult := fun _ => .ok () }

/-- A concrete check-migrations environment with neither missing nor
unapplied migrations. -/
def envC10 : CheckEnv :=
  { createResult := .ok 9,
    makemigrationsRes := .ok ⟨0, ""⟩,
    showmigrationsRes := .ok ⟨0, "[X] app.0001_initial"⟩,
    sqlRes := fun _ _ => .ok ⟨0, ""⟩,
    locksRes := fun _ _ => .ok ⟨0, ""⟩,
    updateResult := fun _ => .ok () }

/-- The body result of envC10. -/
def brC10 : BodyResult :=
  { isMissing := false, mmOut := "", hasUnapplied := false,
    migs := [], details := [] }

/-- A concrete dump-database environment in which every command succeeds,
the dump file is listed as modified (so the dump changed), the file existed
before the run, and its blob hash is deadbeef. -/
def envD1 : DumpEnv :=
  { applyRes := .ok "",
    pgDumpRes := .ok (),
    lsFilesRes := .ok ["db.sql"],
    stashRes := .ok (),
    testFileExit := .ok 0,
    hashLines := .ok ["deadbeef"],
    stashPopRes := .ok (),
    base64Res := .ok "QUJD\n",
    createOrUpdateRes := fun _ => .ok () }

/-- A concrete dump-database environment whose first command throws. -/
def envD3 : DumpEnv :=
  { applyRes := .error "migrate failed",
    pgDumpRes := .ok (),
    lsFilesRes := .ok [],
    stashRes := .ok (),
    testFileExit := .ok 1,
    hashLines := .ok [],
    stashPopRes := .ok (),
    base64Res := .ok "",
    createOrUpdateRes := fun _ => .ok () }

/-- Helper: when every line matches the regex, the per-line map returns the
classification of each line, in input order. -/
theorem classifyLines_ok (ls : List String)
    (h : ∀ l ∈ ls, (matchLine l).isSome) :
    classifyLines ls = .ok (ls.map unappliedOf) := by
  induction ls with
  | nil => rfl
  | cons l ls ih =>
    have hl : (matchLine l).isSome := h l (by simp)
    obtain ⟨⟨c, a, m⟩, hm⟩ := Option.isSome_iff_exists.mp hl
    have ht := ih (fun x hx => h x (by simp [hx]))
    simp [classifyLines, classifyLine, unappliedOf, hm, ht]

/-- Helper: a line that does not match the regex makes the per-line map
throw. -/
theorem classifyLines_err (ls : List String)
    (h : ∃ l ∈ ls, matchLine l = none) :
    ∃ msg, classifyLines ls = .error msg := by
  induction ls with
  | nil => simp at h
  | cons l ls ih =>
    cases hm : matchLine l with
    | none =>
      exact ⟨"Line " ++ l ++ " did not match regex",
        by simp [classifyLines, classifyLine, hm]⟩
    | some g =>
      obtain ⟨l0, hl0, hnone⟩ := h
      rcases List.mem_cons.mp hl0 with rfl | hmem
      · rw [hm] at hnone; exact absurd hnone (by simp)
      · obtain ⟨msg, hmsg⟩ := ih ⟨l0, hmem, hnone⟩
        obtain ⟨c, a, m⟩ := g
        exact ⟨msg, by simp [classifyLines, classifyLine, hm, hmsg]⟩

/-- C2: for every showmigrations stdout, getUnappliedMigrations splits the
trimmed stdout into lines, classifies each line with the fixed regex
(bracketed X or space, whitespace, app label, dot, migration name), and
returns exactly the pairs of the lines whose bracket holds a space, in
input order; when some line does not match the regex it throws. -/
theorem getUnappliedMigrations_classifies_lines (r : ExecResult)
    (h0 : r.exitCode = 0) :
    ((∀ l ∈ splitLines r.stdout, (matchLine l).isSome) →
      getUnappliedMigrations r =
        .ok (decide (0 < ((splitLines r.stdout).filterMap unappliedOf).length),
             (splitLines r.stdout).filterMap unappliedOf))
  ∧ ((∃ l ∈ splitLines r.stdout, matchLine l = none) →
      ∃ msg, getUnappliedMigrations r = .error msg) := by
  constructor
  · intro hall
    rw [getUnappliedMigrations, classifyLines_ok _ hall]
    simp [h0, List.filterMap_map]
  · intro hex
    obtain ⟨msg, hmsg⟩ := classifyLines_err _ hex
    exact ⟨msg, by rw [getUnappliedMigrations]; simp [h0, hmsg]⟩

/-- Witness for C2: on a concrete stdout with one applied and one unapplied
migration, the function returns exactly the unapplied pair. -/
theorem getUnappliedMigrations_classifies_lines_witness :
    getUnappliedMigrations rW = .ok (true, [("app", "0002_other")]) := by
  have h := (getUnappliedMigrations_classifies_lines rW rfl).1 (by decide)
  rw [h]; decide

/-- C9: the boolean returned by getUnappliedMigrations is true exactly when
the returned list is nonempty; the boolean returned by
checkMissingMigrations is true exactly when makemigrations exited nonzero,
and checkMissingMigrations is a total function of the command outcome (it
never throws, whatever the exit code). -/
theorem result_flags_consistent :
    (∀ r bl ms, getUnappliedMigrations r = .ok (bl, ms) → (bl = true ↔ ms ≠ []))
  ∧ (∀ r, (checkMissingMigrations r).1 = true ↔ r.exitCode ≠ 0)
  ∧ (∀ r, checkMissingMigrations r = (r.exitCode != 0, jsTrim r.stdout)) := by
  refine ⟨?_, ?_, fun r => rfl⟩
  · intro r bl ms h
    rw [getUnappliedMigrations] at h
    by_cases he : r.exitCode != 0
    · simp [he] at h
    · simp [he] at h
      cases hc : classifyLines (splitLines r.stdout) with
      | error e => rw [hc] at h; simp [Except.bind] at h
      | ok opts =>
        rw [hc] at h
        simp [Except.bind, pure, Except.pure] at h
        obtain ⟨h1, h2⟩ := h
        subst h1 h2
        simp [List.length_pos]
  · intro r; simp [checkMissingMigrations, bne_iff_ne]

/-- Witness for C9: on the concrete stdout the returned boolean is true and
the returned list is indeed nonempty. -/
theorem result_flags_consistent_witness :
    (true = true ↔ ([("app", "0002_other")] : List (String × String)) ≠ []) :=
  result_flags_consistent.1 rW true [("app", "0002_other")] (by decide)

/-- C4: for an unapplied migration, getMigrationOutput returns the
migration reference, the sqlmigrate stdout as the SQL text, and a locks
field equal to the lock-analysis stdout when that command exited zero and
null when it exited nonzero; when sqlmigrate itself exits nonzero the
function throws. -/
theorem getMigrationOutput_sql_and_locks (env : CheckEnv) (a m : String)
    (sq lk : ExecResult) (hs : env.sqlRes a m = .ok sq)
    (hl : env.locksRes a m = .ok lk) :
    (sq.exitCode = 0 →
      getMigrationOutput env (a, m) =
        .ok { appLabel := a, migrationName := m, sql := sq.stdout,
              locks := if lk.exitCode = 0 then some lk.stdout else none })
  ∧ (sq.exitCode ≠ 0 →
      getMigrationOutput env (a, m) = .error "Failed to run sqlmigrate") := by
  constructor <;> intro hcode <;> simp [getMigrationOutput, hs, hl, hcode]

/-- Witness for C4: concrete successful sqlmigrate with a failing
lock-analysis command yields the SQL text and a null locks field. -/
theorem getMigrationOutput_sql_and_locks_witness :
    getMigrationOutput envC4 ("app", "0001_x") =
      .ok { appLabel := "app", migrationName := "0001_x",
            sql := "SELECT 1;", locks := none } := by
  have h := (getMigrationOutput_sql_and_locks envC4 "app" "0001_x"
    ⟨0, "SELECT 1;"⟩ ⟨1, ""⟩ rfl rfl).1 rfl
  rw [h]; decide

/-- C5: the change detection returns true exactly when the output path is
one of the lines printed by the git ls-files listing; in particular an
empty listing yields false. -/
theorem dumpDatabase_changed_iff_listed (env : DumpEnv) (p : String)
    (lines : List String) (hpg : env.pgDumpRes = .ok ())
    (hls : env.lsFilesRes = .ok lines) :
    dumpDatabase env p = .ok (dbDumpHasChanged lines p)
  ∧ (dbDumpHasChanged lines p = true ↔ p ∈ lines)
  ∧ (lines = [] → dumpDatabase env p = .ok false) := by
  refine ⟨?_, ?_, ?_⟩
  · simp [dumpDatabase, hpg, hls]
  · exact List.elem_iff
  · intro h; subst h; simp [dumpDatabase, hpg, hls, dbDumpHasChanged]

/-- Witness for C5: with the output path listed as modified, the change
detection returns true. -/
theorem dumpDatabase_changed_iff_listed_witness :
    dumpDatabase envD1 "db.sql" = .ok true := by
  have h := (dumpDatabase_changed_iff_listed envD1 "db.sql" ["db.sql"] rfl rfl).1
  rw [h]; decide

/-- C6: commitFile builds the create-or-update request with the trimmed
base64 encoding of the dump file as content, and its sha field is the git
blob hash of the stashed file exactly when the existence test exited zero
(the file existed before the modification of this run), undefined
otherwise. -/
theorem commitFile_content_and_sha (env : DumpEnv) (p : String) (t : Nat)
    (hl : List String) (b64 : String) (h1 : env.stashRes = .ok ())
    (h2 : env.testFileExit = .ok t) (h3 : env.hashLines = .ok hl)
    (h4 : env.stashPopRes = .ok ()) (h5 : env.base64Res = .ok b64) :
    commitFile env p =
      .ok { path := p, message := "Update database template",
            content := jsTrim b64,
            sha := if t = 0 then hl.head? else none } := by
  by_cases ht : t = 0 <;> simp [commitFile, shaOf, h1, h2, h3, h4, h5, ht]

/-- Witness for C6: with an existing file whose blob hash is deadbeef and a
base64 encoding with a trailing newline, the request carries the trimmed
content and the hash as sha. -/
theorem commitFile_content_and_sha_witness :
    commitFile envD1 "db.sql" =
      .ok { path := "db.sql", message := "Update database template",
            content := "QUJD", sha := some "deadbeef" } := by
  have h := commitFile_content_and_sha envD1 "db.sql" 0 ["deadbeef"] "QUJD\n"
    rfl rfl rfl rfl rfl
  rw [h]; decide

/-- C7: makePullRequest does list the open pull requests by head branch,
but the returned promise is never awaited: reading the data property of the
promise yields undefined and reading length of undefined throws a
TypeError, so the function always throws and no pull request is ever
created, whatever the list of open pull requests. -/
theorem makePullRequest_throws_no_create (openPulls : List PullInfo)
    (owner branch : String) :
    makePullRequest openPulls owner branch =
      ([DumpEffect.listPulls "open" (owner ++ ":" ++ branch)],
       .error "TypeError: Cannot read property length of undefined") := rfl

/-- C1: in a run where every command succeeds and the dump file is detected
as changed, the script commits the file but then evaluates the undefined
identifier createPullRequest; the resulting ReferenceError reaches the
catch handler, which marks the action failed, and no pull-request effect
(neither a listing nor a creation) is ever issued. -/
theorem dumpRun_changed_sets_failed_no_pr :
    runDump envD1 "db.sql" "update-db" =
      [DumpEffect.createOrUpdateFile
        { path := "db.sql", message := "Update database template",
          content := "QUJD", sha := some "deadbeef" },
       DumpEffect.setFailed "createPullRequest is not defined"]
  ∧ (runDump envD1 "db.sql" "update-db").all (fun e => !isCreatePull e) = true := by
  constructor <;> decide

/-- C3: in check-migrations, every error thrown after the check run was
created reaches the single catch handler, which marks the action failed
with the message of the error and then updates the existing check run to
conclusion failure as its last effect; in dump-database every error thrown
in the try block reaches the single catch handler, which marks the action
failed with the message of the error. -/
theorem catch_all_error_handling :
    (∀ env id e, env.createResult = .ok id →
       (checkBody env = .error e ∨
        ∃ b, checkBody env = .ok b ∧
          env.updateResult (successUpdate id b) = .error e) →
       CheckEffect.setFailed e ∈ runCheck env ∧
       (runCheck env).getLast? = some (CheckEffect.updateCheck (failureUpdate id)))
  ∧ (∀ env p br e, (dumpBody env p br).2 = some e →
       runDump env p br = (dumpBody env p br).1 ++ [DumpEffect.setFailed e]) := by
  constructor
  · intro env id e hc hcase
    rcases hcase with hb | ⟨b, hb, hu⟩
    · simp [runCheck, hc, hb]
    · simp [runCheck, hc, hb, hu]
  · intro env p br e h
    rw [runDump]
    cases heq : dumpBody env p br with
    | mk effs oe =>
      rw [heq] at h
      simp at h
      rw [h]

/-- Witness for C3: a concrete check-migrations run whose try block throws
and a concrete dump-database run whose first command throws. -/
theorem catch_all_error_handling_witness :
    (CheckEffect.setFailed "boom" ∈ runCheck envC3 ∧
      (runCheck envC3).getLast? = some (CheckEffect.updateCheck (failureUpdate 5)))
  ∧ runDump envD3 "db.sql" "br" =
      (dumpBody envD3 "db.sql" "br").1 ++ [DumpEffect.setFailed "migrate failed"] :=
  ⟨catch_all_error_handling.1 envC3 5 "boom" rfl (Or.inl rfl),
   catch_all_error_handling.2 envD3 "db.sql" "br" "migrate failed" rfl⟩

/-- C8: in every check-migrations run the trace contains exactly one
check-run creation, that creation carries status in_progress, every update
carries conclusion success or failure and no other value, and at most one
update is ever applied, so no transition out of a concluded state occurs. -/
theorem checkRun_lifecycle (env : CheckEnv) :
    (runCheck env).countP isCreateEffect = 1
  ∧ (runCheck env).all effectWellFormed = true
  ∧ (appliedUpdates env).length ≤ 1 := by
  unfold appliedUpdates
  cases hc : env.createResult with
  | error e =>
    simp [runCheck, hc, isCreateEffect, effectWellFormed, updateOf]
  | ok id =>
    cases hb : checkBody env with
    | error e =>
      simp [runCheck, hc, hb, isCreateEffect, effectWellFormed, updateOf,
        failureUpdate]
      exact le_trans (List.length_filter_le _ _) (by simp)
    | ok b =>
      cases hu : env.updateResult (successUpdate id b) with
      | ok u =>
        simp [runCheck, hc, hb, hu, isCreateEffect, effectWellFormed, updateOf,
          exceptOk]
        cases hm : b.isMissing <;> simp [successUpdate, hm]
      | error e =>
        simp [runCheck, hc, hb, hu, isCreateEffect, effectWellFormed, updateOf,
          exceptOk, failureUpdate]
        constructor
        · cases hm : b.isMissing <;> simp [successUpdate, hm]
        · exact le_trans (List.length_filter_le _ _) (by simp)

/-- C10: on the non-error path the check-run conclusion is failure exactly
when missing migrations were detected; without missing migrations the
conclusion is success and the summary is the count of unapplied migrations
followed by new migrations, including the zero count; and that update is
the one the run sends after the in_progress creation. -/
theorem conclusion_iff_missing (env : CheckEnv) (id : Nat) (b : BodyResult)
    (h : checkBody env = .ok b) :
    ((successUpdate id b).conclusion = "failure" ↔ b.isMissing = true)
  ∧ (b.isMissing = false →
      (successUpdate id b).output.summary =
        toString b.migs.length ++ " new migrations")
  ∧ (env.createResult = .ok id →
      env.updateResult (successUpdate id b) = .ok () →
      runCheck env = [CheckEffect.createCheck "in_progress",
                      CheckEffect.updateCheck (successUpdate id b)]) := by
  refine ⟨?_, ?_, ?_⟩
  · cases hm : b.isMissing <;> simp [successUpdate, hm]
  · intro hm; simp [successUpdate, summaryText, hm]
  · intro hcr hu; simp [runCheck, hcr, h, hu]

/-- Witness for C10: a concrete run with neither missing nor unapplied
migrations concludes success with the summary 0 new migrations. -/
theorem conclusion_iff_missing_witness :
    ((successUpdate 9 brC10).conclusion = "failure" ↔ brC10.isMissing = true)
  ∧ (successUpdate 9 brC10).output.summary = "0 new migrations"
  ∧ runCheck envC10 = [CheckEffect.createCheck "in_progress",
                       CheckEffect.updateCheck (successUpdate 9 brC10)] := by
  have h := conclusion_iff_missing envC10 9 brC10 (by decide)
  exact ⟨h.1, by rw [h.2.1 (by decide)]; decide, h.2.2 rfl rfl⟩

end DjangoActions
